import Mathlib

/-!
Verification of the document-extraction / OCR-fallback pipeline.

This file shallowly embeds the OCR arbiter (`SmartOCRService`), the remote
provider's retry loop (`MistralOCRService`), the PDF page splitter
(`EnhancedPDFService`), the PPTX slide splitter (`EnhancedPPTXService`) and
the batch document pipeline (`DocumentProcessingService`) from the source
tree, and proves / refutes the frozen specification claims about them.

Modelling conventions:
* JavaScript `Date.now()` readings within one call are modelled by a single
  per-call timestamp `now`; elapsed-time values (`Date.now() - startTime`)
  are modelled by a per-call duration `dur` supplied by the environment.
* Collaborator services (remote OCR HTTP call, on-device ML-Kit OCR, file
  reads, page-image conversion) are modelled by per-call outcomes supplied
  in an environment record; a thrown JavaScript error is an `err` outcome
  carrying its message.
* Nondeterministic fields of the source records (random `id`, wall-clock
  `processingTime` of splitter units) are omitted; every remaining field is
  translated from the source.
-/

namespace Hagee

/-- Outcome of a collaborator call that yields a string or throws an error
whose message is a string. -/
inductive StrOutcome where
  | ok (value : String)
  | err (msg : String)
deriving DecidableEq, Repr

/-- Result of the on-device recognizer `OfflineOCRService.extractTextFromImage`
(fields used by `SmartOCRService`). -/
structure LocalOCR where
  text : String
  confidence : ℚ
deriving DecidableEq, Repr

/-- Outcome of a local-OCR call: a result or a thrown error message. -/
inductive LocalOutcome where
  | ok (r : LocalOCR)
  | err (msg : String)
deriving DecidableEq, Repr

/-- The `source` union type of `OCRResult` in SmartOCRService.ts. -/
inductive OCRSource where
  | mistral
  | online
  | offline
deriving DecidableEq, Repr

/-- The `OCRResult` interface of SmartOCRService.ts. -/
structure OCRResult where
  text : String
  source : OCRSource
  confidence : ℚ
  processingTime : Nat
  fallbackUsed : Bool
deriving DecidableEq, Repr

/-- Outcome of one `SmartOCRService.extractTextFromImage` call: a returned
`OCRResult` or a thrown error. -/
inductive OCROutcome where
  | ok (r : OCRResult)
  | thrown (e : String)
deriving DecidableEq, Repr

/-- The class-level mutable state of `SmartOCRService`. -/
structure SmartOCRState where
  consecutiveFailures : Nat
  isTemporarilyOffline : Bool
  offlineUntil : Nat
deriving DecidableEq, Repr

/-- `SmartOCRService.MAX_CONSECUTIVE_FAILURES`. -/
def MAX_CONSECUTIVE_FAILURES : Nat := 2

/-- `SmartOCRService.OFFLINE_COOLDOWN` (5 minutes in ms). -/
def OFFLINE_COOLDOWN : Nat := 5 * 60 * 1000

/-- The `preferredMode` union type of `extractTextFromImage`. -/
inductive OCRMode where
  | online
  | offline
  | auto
deriving DecidableEq, Repr

/-- Environment of one `extractTextFromImage` call: the call timestamp, the
elapsed duration used for `processingTime` fields, and the outcomes of the
remote (`MistralOCRService`) and local (`OfflineOCRService`) collaborators. -/
structure CallEnv where
  now : Nat
  dur : Nat
  remote : StrOutcome
  localOCR : LocalOutcome
deriving DecidableEq, Repr

/-- `SmartOCRService.performOfflineOCR`: wraps the device recognizer result;
a thrown recognizer error propagates. -/
def performOfflineOCR (env : CallEnv) (fallbackUsed : Bool) : OCROutcome :=
  match env.localOCR with
  | .ok r =>
      .ok { text := r.text, source := .offline, confidence := r.confidence,
            processingTime := env.dur, fallbackUsed := fallbackUsed }
  | .err e => .thrown e

/-- `SmartOCRService.performOnlineOCR`: wraps the Mistral result with fixed
confidence 0.9; a thrown error is re-thrown (after the 429 log check). -/
def performOnlineOCR (env : CallEnv) : OCROutcome :=
  match env.remote with
  | .ok t =>
      .ok { text := t, source := .mistral, confidence := 9/10,
            processingTime := env.dur, fallbackUsed := false }
  | .err e => .thrown e

/-- The synthetic diagnostic text returned when both online and offline OCR
fail in auto mode (the template literal in `extractTextFromImage`). -/
def syntheticFailureText (onlineErr offlineErr : String) : String :=
  "OCR processing failed for this image.\n\nOnline Error: " ++ onlineErr ++
  "\nOffline Error: " ++ offlineErr ++
  "\n\nSuggestions:\n1. Check your internet connection and API keys\n" ++
  "2. Ensure the image is clear and contains readable text\n" ++
  "3. Try again in a few minutes"

/-- `SmartOCRService.extractTextFromImage`: cooldown check, lazy cooldown
expiry, explicit-mode dispatch, and the auto-mode fallback ladder. Returns
the call outcome together with the state after the call. -/
def extractTextFromImage (st : SmartOCRState) (mode : OCRMode) (env : CallEnv) :
    OCROutcome × SmartOCRState :=
  if st.isTemporarilyOffline = true ∧ env.now < st.offlineUntil then
    (performOfflineOCR env true, st)
  else
    let st1 :=
      if st.isTemporarilyOffline = true ∧ st.offlineUntil ≤ env.now then
        { st with isTemporarilyOffline := false, consecutiveFailures := 0 }
      else st
    match mode with
    | .offline => (performOfflineOCR env false, st1)
    | .online => (performOnlineOCR env, st1)
    | .auto =>
      match env.remote with
      | .ok _ => (performOnlineOCR env, { st1 with consecutiveFailures := 0 })
      | .err e =>
        let failures := st1.consecutiveFailures + 1
        let st2 :=
          if MAX_CONSECUTIVE_FAILURES ≤ failures then
            { consecutiveFailures := failures, isTemporarilyOffline := true,
              offlineUntil := env.now + OFFLINE_COOLDOWN }
          else { st1 with consecutiveFailures := failures }
        match env.localOCR with
        | .ok r =>
            (.ok { text := r.text, source := .offline, confidence := r.confidence,
                   processingTime := env.dur, fallbackUsed := true }, st2)
        | .err oe =>
            (.ok { text := syntheticFailureText e oe, source := .offline,
                   confidence := 0, processingTime := env.dur,
                   fallbackUsed := true }, st2)

/-- The error placeholder pushed by `extractTextFromImages` when processing
image `i` (0-based) throws with message `e`. -/
def placeholderResult (i : Nat) (e : String) : OCRResult :=
  { text := "Failed to process image " ++ toString (i + 1) ++ ": " ++ e,
    source := .offline, confidence := 0, processingTime := 0,
    fallbackUsed := true }

/-- Loop body of `SmartOCRService.extractTextFromImages`, threading the
class state and the absolute image index. -/
def extractTextFromImagesGo (mode : OCRMode) (st : SmartOCRState) (i : Nat) :
    List CallEnv → List OCRResult × SmartOCRState
  | [] => ([], st)
  | env :: rest =>
    let step := extractTextFromImage st mode env
    let r :=
      match step.1 with
      | .ok r => r
      | .thrown e => placeholderResult i e
    let next := extractTextFromImagesGo mode step.2 (i + 1) rest
    (r :: next.1, next.2)

/-- `SmartOCRService.extractTextFromImages`: batch OCR over a list of
per-image call environments. -/
def extractTextFromImages (st : SmartOCRState) (mode : OCRMode)
    (envs : List CallEnv) : List OCRResult × SmartOCRState :=
  extractTextFromImagesGo mode st 0 envs

/-- `SmartOCRService.forceOfflineMode`: activates the cooldown regardless of
the failure counter. -/
def forceOfflineMode (st : SmartOCRState) (now durationMs : Nat) : SmartOCRState :=
  { st with isTemporarilyOffline := true, offlineUntil := now + durationMs }

/-! ## MistralOCRService (src/unnamed/part_005) -/

/-- `MistralOCRService.MAX_RETRIES`. -/
def MAX_RETRIES : Nat := 3

/-- `MistralOCRService.BASE_DELAY` (ms, base of the exponential backoff). -/
def BASE_DELAY : Nat := 2000

/-- `MistralOCRService.MIN_REQUEST_INTERVAL` (ms, self-throttle). -/
def MIN_REQUEST_INTERVAL : Nat := 5000

/-- The `errorMessage.includes('429')` check used by the retry loop. -/
def includes429 (msg : String) : Bool :=
  decide ("429".toList <:+: msg.toList)

/-- Result of a `MistralOCRService.executeWithRetry` run: the final outcome,
the backoff delays that were awaited, and the number of invocations of the
wrapped operation. -/
structure RetryRun where
  result : StrOutcome
  delays : List Nat
  attemptsMade : Nat
deriving DecidableEq, Repr

/-- The `for (attempt = 0; attempt < MAX_RETRIES; attempt++)` loop of
`MistralOCRService.executeWithRetry`. `op` gives the outcome of the wrapped
operation on each attempt index; `fuel` counts the remaining loop
iterations (`MAX_RETRIES - attempt`). -/
def executeWithRetryGo (op : Nat → StrOutcome) (attempt : Nat)
    (lastError : Option String) (delays : List Nat) : Nat → RetryRun
  | 0 => ⟨.err (lastError.getD "OCR failed after all retries"), delays, attempt⟩
  | fuel + 1 =>
    match op attempt with
    | .ok t => ⟨.ok t, delays, attempt + 1⟩
    | .err e =>
      if includes429 e = true ∧ attempt < MAX_RETRIES - 1 then
        executeWithRetryGo op (attempt + 1) (some e)
          (delays ++ [BASE_DELAY * 2 ^ attempt]) fuel
      else if attempt = 0 ∧ ¬ includes429 e = true then
        ⟨.err e, delays, attempt + 1⟩
      else
        executeWithRetryGo op (attempt + 1) (some e) delays fuel

/-- `MistralOCRService.executeWithRetry` (as called from
`extractTextFromImage`, with `performOCR` as the wrapped operation). -/
def executeWithRetry (op : Nat → StrOutcome) : RetryRun :=
  executeWithRetryGo op 0 none [] MAX_RETRIES

/-! ## EnhancedPDFService (src/services/EnhancedPDFService.ts) -/

/-- JavaScript `String.prototype.trim`: strip leading and trailing
whitespace (written over the character list so the kernel can evaluate
it). -/
def jsTrim (s : String) : String :=
  ⟨((s.data.dropWhile Char.isWhitespace).reverse.dropWhile
      Char.isWhitespace).reverse⟩

/-- Number of maximal nonempty runs of non-whitespace characters. -/
def wordCountAux : List Char → Bool → Nat
  | [], _ => 0
  | c :: rest, inWord =>
    if c.isWhitespace then wordCountAux rest false
    else (if inWord then 0 else 1) + wordCountAux rest true

/-- The `text.split(/\s+/).filter(w => w.length > 0).length` word count used
throughout the splitters. -/
def countWords (s : String) : Nat :=
  wordCountAux s.data false

/-- The `PDFPageInfo` interface (without the wall-clock `processingTime`). -/
structure PDFPageInfo where
  pageNumber : Nat
  text : String
  wordCount : Nat
  ocrUsed : Bool
deriving DecidableEq, Repr

/-- Environment of one page-processing attempt body: outcomes of
`convertPDFPageToImage` (its thrown error is caught and leaves an empty
image URI), `extractBasicTextFromPage` together with the single-page
copy/save step feeding it (a thrown error is caught and leaves empty text),
and the `SmartOCRService.extractTextFromImage` call. -/
structure PageBodyEnv where
  conv : StrOutcome
  basic : StrOutcome
  ocr : StrOutcome
deriving DecidableEq, Repr

/-- The structural-extraction text of a page attempt: the `pageText`
variable just before the OCR gate. -/
def basicTextOf (env : PageBodyEnv) : String :=
  match env.basic with
  | .ok t => t
  | .err _ => ""

/-- The `pageProcessing` async body in `extractTextFromPDF`: structural
extraction first, then the OCR gate (`!pageText || pageText.trim().length <
20`, guarded by a non-empty image URI). Returns `(pageText, ocrUsed)`. -/
def pageBody (pageNum : Nat) (env : PageBodyEnv) : String × Bool :=
  let pageImageUri :=
    match env.conv with
    | .ok uri => uri
    | .err _ => ""
  let pageText := basicTextOf env
  if (pageText = "" ∨ (jsTrim pageText).length < 20) ∧ pageImageUri ≠ "" then
    match env.ocr with
    | .ok t => (t, true)
    | .err _ => ("Page " ++ toString (pageNum + 1) ++ ": Text extraction failed", false)
  else
    (pageText, false)

/-- `maxRetries` of the per-page retry loop in `extractTextFromPDF`. -/
def pdfMaxRetries : Nat := 2

/-- The per-page timeout (`45000` ms) raced against the page body. Real
elapsed time is not modelled; an attempt environment of `none` stands for
the timeout winning the race. -/
def PAGE_TIMEOUT_MS : Nat := 45000

/-- The error `PDFPageInfo` recorded after all retries of a page failed
(the only throw inside an attempt is the timeout rejection, whose message
is the fixed string `Page processing timeout`). -/
def mkErrorPage (pageNum : Nat) : PDFPageInfo :=
  { pageNumber := pageNum + 1,
    text := "Error processing page " ++ toString (pageNum + 1) ++
      ": Page processing timeout",
    wordCount := 0, ocrUsed := false }

/-- The `while (!pageProcessed && retryCount <= maxRetries)` loop of
`extractTextFromPDF` for one page. `att` gives the environment of each
attempt (`none` = the 45 s timeout fired); `fuel` bounds the loop
(`pdfMaxRetries + 1` iterations suffice). -/
def processPageGo (pageNum : Nat) (att : Nat → Option PageBodyEnv)
    (retryCount : Nat) : Nat → PDFPageInfo
  | 0 => mkErrorPage pageNum
  | fuel + 1 =>
    match att retryCount with
    | some env =>
      let r := pageBody pageNum env
      { pageNumber := pageNum + 1, text := r.1, wordCount := countWords r.1,
        ocrUsed := r.2 }
    | none =>
      if pdfMaxRetries < retryCount + 1 then mkErrorPage pageNum
      else processPageGo pageNum att (retryCount + 1) fuel

/-- Per-page processing of `extractTextFromPDF` including the retry loop. -/
def processPage (pageNum : Nat) (att : Nat → Option PageBodyEnv) : PDFPageInfo :=
  processPageGo pageNum att 0 (pdfMaxRetries + 1)

/-- The `EnhancedPDFResult` interface (without the wall-clock fields and the
summary string). -/
structure EnhancedPDFResult where
  pages : List PDFPageInfo
  combinedText : String
  totalPages : Nat
  totalWordCount : Nat
deriving DecidableEq, Repr

/-- `EnhancedPDFService.extractTextFromPDF`: the splitter identifies
`totalPages` units (`pdfDoc.getPageCount()`) and processes each page under
the retry loop; `att p a` is the environment of attempt `a` on page `p`. -/
def extractTextFromPDF (totalPages : Nat)
    (att : Nat → Nat → Option PageBodyEnv) : EnhancedPDFResult :=
  let pages := (List.range totalPages).map fun p => processPage p (att p)
  { pages := pages,
    combinedText :=
      (String.join (pages.map fun pg =>
        "\n=== Page " ++ toString pg.pageNumber ++ " ===\n" ++ pg.text ++ "\n")) |> jsTrim,
    totalPages := totalPages,
    totalWordCount := (pages.map fun pg => pg.wordCount).sum }

/-! ## EnhancedPPTXService (src/services/OfflineOCRService.ts) -/

/-- The `PPTXSlideInfo` interface (without the wall-clock `processingTime`). -/
structure PPTXSlideInfo where
  slideNumber : Nat
  text : String
  wordCount : Nat
  ocrUsed : Bool
deriving DecidableEq, Repr

/-- Environment of one slide of `extractTextFromPPTX`: the structural text
(`err` = the zip read of the slide XML threw; `ok s` = the result of
`extractTextFromSlideXML`, which never throws), the result of
`createSlideImageForOCR` (never throws, may be `null`), and the
`SmartOCRService.extractTextFromImage` outcome. -/
structure SlideEnv where
  structuralText : StrOutcome
  imageUri : Option String
  ocr : StrOutcome
deriving DecidableEq, Repr

/-- The error `PPTXSlideInfo` recorded when processing slide `i` (0-based)
throws with message `e`. -/
def slideErrorInfo (i : Nat) (e : String) : PPTXSlideInfo :=
  { slideNumber := i + 1,
    text := "Error processing slide " ++ toString (i + 1) ++ ": " ++ e,
    wordCount := 0, ocrUsed := false }

/-- The body of the per-slide loop of `extractTextFromPPTX`: structural XML
extraction, then the OCR gate (`!slideText || slideText.trim().length <
20`), with a thrown error caught into an error slide. There is no timeout
and no retry around a slide. -/
def processSlide (i : Nat) (env : SlideEnv) : PPTXSlideInfo :=
  match env.structuralText with
  | .err e => slideErrorInfo i e
  | .ok slideText =>
    if slideText = "" ∨ (jsTrim slideText).length < 20 then
      match env.imageUri with
      | some _ =>
        match env.ocr with
        | .ok t =>
            { slideNumber := i + 1, text := t, wordCount := countWords t,
              ocrUsed := true }
        | .err e => slideErrorInfo i e
      | none =>
          { slideNumber := i + 1, text := slideText,
            wordCount := countWords slideText, ocrUsed := false }
    else
      { slideNumber := i + 1, text := slideText,
        wordCount := countWords slideText, ocrUsed := false }

/-- The slide loop of `extractTextFromPPTX` starting at slide index `i`. -/
def processSlides (i : Nat) : List SlideEnv → List PPTXSlideInfo
  | [] => []
  | env :: rest => processSlide i env :: processSlides (i + 1) rest

/-- The `EnhancedPPTXResult` interface (without the wall-clock fields and
the summary string). -/
structure EnhancedPPTXResult where
  slides : List PPTXSlideInfo
  combinedText : String
  totalSlides : Nat
  totalWordCount : Nat
deriving DecidableEq, Repr

/-- `EnhancedPPTXService.extractTextFromPPTX`: the splitter identifies one
unit per `ppt/slides/slideN.xml` member (`slideEnvs` lists them in order). -/
def extractTextFromPPTX (slideEnvs : List SlideEnv) : EnhancedPPTXResult :=
  let slides := processSlides 0 slideEnvs
  { slides := slides,
    combinedText :=
      (String.join (slides.map fun sl =>
        "\n=== Slide " ++ toString sl.slideNumber ++ " ===\n" ++ sl.text ++ "\n")) |> jsTrim,
    totalSlides := slideEnvs.length,
    totalWordCount := (slides.map fun sl => sl.wordCount).sum }

/-- Modelled from the spec: the per-unit retry discipline the spec ascribes
to every splitter unit (`retried up to 2 additional times` before the unit
is `recorded with an error message as its text`), applied to PPTX slides.
The source's slide loop has no such retry; this definition exists only to
state the divergence. `atts` gives the slide environment each attempt
would see. -/
def processSlideRetrySpecGo (i : Nat) (atts : Nat → SlideEnv) (k : Nat) :
    Nat → PPTXSlideInfo
  | 0 => processSlide i (atts k)
  | fuel + 1 =>
    let env := atts k
    let throws :=
      match env.structuralText with
      | .err _ => true
      | .ok slideText =>
        if slideText = "" ∨ (jsTrim slideText).length < 20 then
          match env.imageUri with
          | some _ =>
            match env.ocr with
            | .ok _ => false
            | .err _ => true
          | none => false
        else false
    if throws = true ∧ k < pdfMaxRetries then
      processSlideRetrySpecGo i atts (k + 1) fuel
    else processSlide i env

/-- Modelled from the spec: slide processing with up to 2 retries. -/
def processSlideRetrySpec (i : Nat) (atts : Nat → SlideEnv) : PPTXSlideInfo :=
  processSlideRetrySpecGo i atts 0 pdfMaxRetries

/-- What the source's slide loop does when offered a sequence of attempt
environments: it consults only the first one (there is no retry). -/
def processSlideAttempts (i : Nat) (atts : Nat → SlideEnv) : PPTXSlideInfo :=
  processSlide i (atts 0)

/-! ## DocumentProcessingService (src/services/OfflineOCRService.ts) -/

/-- The `documentType.includes(...)` substring test of the dispatcher. -/
def typeIncludes (dtype needle : String) : Bool :=
  decide (needle.toList <:+: dtype.toList)

/-- The dispatch chain of `processDocument`: a type is handled iff one of
the `includes` branches matches. -/
def dispatchSupported (dtype : String) : Bool :=
  typeIncludes dtype "pdf" || typeIncludes dtype "word" ||
  typeIncludes dtype "officedocument.wordprocessingml" ||
  typeIncludes dtype "powerpoint" || typeIncludes dtype "presentationml" ||
  typeIncludes dtype "image" || typeIncludes dtype "text"

/-- Outcome of the type-specific processing body of one document (extracted
text and image descriptions, or a thrown error). -/
inductive DocBodyOutcome where
  | ok (text : String) (imageDescriptions : List String)
  | err (msg : String)
deriving DecidableEq, Repr

/-- One input document of the batch pipeline together with the outcome its
type-specific processor would produce. -/
structure BatchDoc where
  name : String
  dtype : String
  body : DocBodyOutcome
deriving DecidableEq, Repr

/-- The `ProcessedDocument` interface (without the random `id` and the
wall-clock `processingTime`; `pageCount`, `processingMethod` and `warnings`
are collaborator pass-throughs not needed by the claims). -/
structure ProcessedDocument where
  name : String
  dtype : String
  extractedText : String
  imageDescriptions : List String
  wordCount : Nat
deriving DecidableEq, Repr

/-- Outcome of `DocumentProcessingService.processDocument`. -/
inductive DocOutcome where
  | ok (doc : ProcessedDocument)
  | err (msg : String)
deriving DecidableEq, Repr

/-- `DocumentProcessingService.processDocument`: dispatch on the declared
type; an unmatched type throws `Unsupported document type`; a thrown
processor error propagates. -/
def processDocument (d : BatchDoc) : DocOutcome :=
  if dispatchSupported d.dtype = true then
    match d.body with
    | .ok text imgs =>
        .ok { name := d.name, dtype := d.dtype, extractedText := text,
              imageDescriptions := imgs, wordCount := countWords text }
    | .err e => .err e
  else .err ("Unsupported document type: " ++ d.dtype)

/-- `DocumentProcessingService.combineDocumentContent`. -/
def combineDocumentContent (documents : List ProcessedDocument) : String :=
  String.intercalate "\n\n" (documents.map fun doc =>
    let content := "=== " ++ doc.name ++ " ===\n" ++ doc.extractedText
    if 0 < doc.imageDescriptions.length then
      content ++ "\n\nImage Descriptions:\n" ++
        String.intercalate "\n" doc.imageDescriptions
    else content)

/-- The `doc.type` classification inside `generateBatchSummary`. -/
def typeLabel (dtype : String) : String :=
  if typeIncludes dtype "pdf" = true then "PDF"
  else if typeIncludes dtype "word" = true then "DOCX"
  else if typeIncludes dtype "powerpoint" = true then "PPTX"
  else if typeIncludes dtype "image" = true then "Image"
  else "Other"

/-- The `acc[type] = (acc[type] || 0) + 1` accumulation of
`generateBatchSummary`, preserving first-insertion key order as a JS
object does. -/
def bumpCount : List (String × Nat) → String → List (String × Nat)
  | [], k => [(k, 1)]
  | (k', n) :: rest, k =>
    if k' = k then (k', n + 1) :: rest else (k', n) :: bumpCount rest k

/-- `Math.round(a / b)` on nonnegative values (used for the average words
per document). -/
def jsRound (a b : Nat) : Nat := (2 * a + b) / (2 * b)

/-- `DocumentProcessingService.generateBatchSummary` (its `avg` is `NaN`
when no document was processed, as in JS). -/
def generateBatchSummary (documents : List ProcessedDocument) : String :=
  let totalDocs := documents.length
  let totalWords := (documents.map fun doc => doc.wordCount).sum
  let totalImages := (documents.map fun doc => doc.imageDescriptions.length).sum
  let avg := if totalDocs = 0 then "NaN" else toString (jsRound totalWords totalDocs)
  let typeBreakdown := documents.foldl (fun acc doc => bumpCount acc (typeLabel doc.dtype)) []
  "Batch Processing Summary:\n" ++
  "• " ++ toString totalDocs ++ " documents processed\n" ++
  "• " ++ toString totalWords ++ " total words (avg: " ++ avg ++ " per doc)\n" ++
  "• " ++ toString totalImages ++ " images processed\n" ++
  "• Document types: " ++
    String.intercalate ", "
      (typeBreakdown.map fun kv => toString kv.2 ++ " " ++ kv.1) ++ "\n"

/-- The `BatchProcessingResult` interface (without the wall-clock
`totalProcessingTime`). -/
structure BatchProcessingResult where
  documents : List ProcessedDocument
  combinedText : String
  totalWordCount : Nat
  summary : String
deriving DecidableEq, Repr

/-- `DocumentProcessingService.processBatch`: sequential processing; a
failed document is only logged (`// Continue with other documents`) and
contributes nothing to the result. -/
def processBatch (docs : List BatchDoc) : BatchProcessingResult :=
  let processed := docs.filterMap fun d =>
    match processDocument d with
    | .ok p => some p
    | .err _ => none
  { documents := processed,
    combinedText := combineDocumentContent processed,
    totalWordCount := (processed.map fun doc => doc.wordCount).sum,
    summary := generateBatchSummary processed }

/-- `true` iff `processDocument` returns normally on this document. -/
def docSucceeds (d : BatchDoc) : Bool :=
  match processDocument d with
  | .ok _ => true
  | .err _ => false

/-! ## Helper lemmas -/

/-- With the cooldown flag set and unexpired, every call routes to the
local provider with `fallbackUsed = true` and leaves the state unchanged,
whatever the requested mode. -/
theorem extractTextFromImage_cooldown (st : SmartOCRState) (mode : OCRMode)
    (env : CallEnv) (hf : st.isTemporarilyOffline = true)
    (hn : env.now < st.offlineUntil) :
    extractTextFromImage st mode env = (performOfflineOCR env true, st) := by
  simp [extractTextFromImage, hf, hn]

/-- State after an auto-mode call whose remote attempt fails, starting
outside cooldown. -/
theorem extractTextFromImage_auto_fail_state (st : SmartOCRState)
    (env : CallEnv) (m : String) (hf : st.isTemporarilyOffline = false)
    (hr : env.remote = .err m) :
    (extractTextFromImage st .auto env).2 =
      if MAX_CONSECUTIVE_FAILURES ≤ st.consecutiveFailures + 1 then
        ⟨st.consecutiveFailures + 1, true, env.now + OFFLINE_COOLDOWN⟩
      else ⟨st.consecutiveFailures + 1, false, st.offlineUntil⟩ := by
  cases hl : env.localOCR <;>
    simp [extractTextFromImage, hf, hr, hl]

/-- An auto-mode call at or after the cooldown expiry with a successful
remote attempt: the arbiter resets and returns the remote result. -/
theorem extractTextFromImage_expiry_success (st : SmartOCRState)
    (env : CallEnv) (t : String) (hf : st.isTemporarilyOffline = true)
    (hn : st.offlineUntil ≤ env.now) (hr : env.remote = .ok t) :
    extractTextFromImage st .auto env =
      (.ok { text := t, source := .mistral, confidence := 9/10,
             processingTime := env.dur, fallbackUsed := false },
       ⟨0, false, st.offlineUntil⟩) := by
  have hn' : ¬ env.now < st.offlineUntil := not_lt.mpr hn
  simp [extractTextFromImage, hf, hn, hn', performOnlineOCR, hr]

/-! ## Claim theorems -/

/-- C1: after 2 consecutive remote failures in auto mode the arbiter enters
a 5-minute cooldown anchored at the second failure's timestamp; every auto
call strictly before the expiry routes to the local provider without
attempting the remote provider (its outcome and state do not depend on the
remote outcome at all); the first call at or after the expiry leaves
cooldown, resets `consecutiveFailures` to 0 and attempts the remote
provider again. -/
theorem C1_cooldown_state_machine
    (st0 : SmartOCRState) (e1 e2 e3 e4 : CallEnv) (m1 m2 t4 : String)
    (hf0 : st0.isTemporarilyOffline = false)
    (hcf : st0.consecutiveFailures = 0)
    (hr1 : e1.remote = .err m1) (hr2 : e2.remote = .err m2)
    (h3 : e3.now < (extractTextFromImage (extractTextFromImage st0 .auto e1).2 .auto e2).2.offlineUntil)
    (h4 : (extractTextFromImage (extractTextFromImage st0 .auto e1).2 .auto e2).2.offlineUntil ≤ e4.now)
    (hr4 : e4.remote = .ok t4) :
    (extractTextFromImage (extractTextFromImage st0 .auto e1).2 .auto e2).2 =
      ⟨2, true, e2.now + OFFLINE_COOLDOWN⟩ ∧
    extractTextFromImage
        (extractTextFromImage (extractTextFromImage st0 .auto e1).2 .auto e2).2 .auto e3 =
      (performOfflineOCR e3 true,
       (extractTextFromImage (extractTextFromImage st0 .auto e1).2 .auto e2).2) ∧
    extractTextFromImage
        (extractTextFromImage (extractTextFromImage st0 .auto e1).2 .auto e2).2 .auto e4 =
      (.ok { text := t4, source := .mistral, confidence := 9/10,
             processingTime := e4.dur, fallbackUsed := false },
       ⟨0, false, e2.now + OFFLINE_COOLDOWN⟩) := by
  have hst1 : (extractTextFromImage st0 .auto e1).2 = ⟨1, false, st0.offlineUntil⟩ := by
    rw [extractTextFromImage_auto_fail_state st0 e1 m1 hf0 hr1]
    simp [hcf, MAX_CONSECUTIVE_FAILURES]
  have hst2 : (extractTextFromImage (extractTextFromImage st0 .auto e1).2 .auto e2).2 =
      ⟨2, true, e2.now + OFFLINE_COOLDOWN⟩ := by
    rw [hst1, extractTextFromImage_auto_fail_state _ e2 m2 rfl hr2]
    simp [MAX_CONSECUTIVE_FAILURES]
  rw [hst2] at h3 h4 ⊢
  refine ⟨rfl, ?_, ?_⟩
  · exact extractTextFromImage_cooldown _ .auto e3 rfl h3
  · exact extractTextFromImage_expiry_success _ e4 t4 rfl h4 hr4

/-- Witness for C1 at concrete inputs: two failures at times 100 and 200, a
third call at time 200100 (inside the 5-minute window) routed locally, and
a call at time 300200 (at expiry) that resets and reaches the remote
provider. -/
theorem C1_cooldown_state_machine_witness :
    (extractTextFromImage
        (extractTextFromImage (⟨0, false, 0⟩ : SmartOCRState) .auto
          ⟨100, 7, .err "fail one", .ok ⟨"lt", 1/2⟩⟩).2 .auto
        ⟨200, 7, .err "fail two", .ok ⟨"lt", 1/2⟩⟩).2 =
      ⟨2, true, 300200⟩ ∧
    extractTextFromImage (⟨2, true, 300200⟩ : SmartOCRState) .auto
        ⟨200100, 3, .err "ignored", .ok ⟨"lt", 1/2⟩⟩ =
      (performOfflineOCR ⟨200100, 3, .err "ignored", .ok ⟨"lt", 1/2⟩⟩ true,
       ⟨2, true, 300200⟩) ∧
    extractTextFromImage (⟨2, true, 300200⟩ : SmartOCRState) .auto
        ⟨300200, 5, .ok "remote text", .ok ⟨"lt", 1/2⟩⟩ =
      (.ok { text := "remote text", source := .mistral, confidence := 9/10,
             processingTime := 5, fallbackUsed := false },
       ⟨0, false, 300200⟩) := by
  have h := C1_cooldown_state_machine (⟨0, false, 0⟩ : SmartOCRState)
    ⟨100, 7, .err "fail one", .ok ⟨"lt", 1/2⟩⟩
    ⟨200, 7, .err "fail two", .ok ⟨"lt", 1/2⟩⟩
    ⟨200100, 3, .err "ignored", .ok ⟨"lt", 1/2⟩⟩
    ⟨300200, 5, .ok "remote text", .ok ⟨"lt", 1/2⟩⟩
    "fail one" "fail two" "remote text" rfl rfl rfl rfl (by decide) (by decide) rfl
  obtain ⟨h1, h2, h3⟩ := h
  refine ⟨h1, ?_, ?_⟩
  · rw [h1] at h2; simpa using h2
  · rw [h1] at h3; simpa using h3

/-- C2 counterexample: with an unexpired cooldown active (state
`⟨2, true, 1000⟩`, call time 0), an explicit `online` request does not call
the remote provider and does not propagate its error — it returns the local
result with `fallbackUsed = true`; an explicit `offline` request returns
`fallbackUsed = true`, not `false`. The cooldown check precedes the
explicit-mode dispatch, so explicit modes do not bypass the cooldown. -/
theorem C2_explicit_modes_counterexample :
    (extractTextFromImage ⟨2, true, 1000⟩ .online
        ⟨0, 3, .err "boom", .ok ⟨"local text", 1⟩⟩).1 =
      .ok { text := "local text", source := .offline, confidence := 1,
            processingTime := 3, fallbackUsed := true } ∧
    (extractTextFromImage ⟨2, true, 1000⟩ .online
        ⟨0, 3, .err "boom", .ok ⟨"local text", 1⟩⟩).1 ≠ .thrown "boom" ∧
    (extractTextFromImage ⟨2, true, 1000⟩ .offline
        ⟨0, 3, .err "boom", .ok ⟨"local text", 1⟩⟩).1 =
      .ok { text := "local text", source := .offline, confidence := 1,
            processingTime := 3, fallbackUsed := true } := by
  decide

/-- C2 amended: explicit-mode requests bypass arbitration only while no
unexpired cooldown is active: then `online` always calls the remote
provider and propagates its error with no local fallback, and `offline`
calls the local provider only, returning `source = offline` and
`fallbackUsed = false`. While a cooldown is active and unexpired, requests
of either explicit mode are routed to the local provider with
`fallbackUsed = true`. -/
theorem C2_explicit_modes_amended (st : SmartOCRState) (env : CallEnv) :
    (¬ (st.isTemporarilyOffline = true ∧ env.now < st.offlineUntil) →
      (extractTextFromImage st .online env).1 = performOnlineOCR env ∧
      (∀ m, env.remote = .err m →
        (extractTextFromImage st .online env).1 = .thrown m) ∧
      (∀ r, env.localOCR = .ok r →
        (extractTextFromImage st .offline env).1 =
          .ok { text := r.text, source := .offline, confidence := r.confidence,
                processingTime := env.dur, fallbackUsed := false })) ∧
    ((st.isTemporarilyOffline = true ∧ env.now < st.offlineUntil) →
      (extractTextFromImage st .online env).1 = performOfflineOCR env true ∧
      (extractTextFromImage st .offline env).1 = performOfflineOCR env true) := by
  constructor
  · intro hnc
    refine ⟨by simp [extractTextFromImage, hnc], ?_, ?_⟩
    · intro m hm
      simp [extractTextFromImage, hnc, performOnlineOCR, hm]
    · intro r hr
      simp [extractTextFromImage, hnc, performOfflineOCR, hr]
  · intro hc
    rw [extractTextFromImage_cooldown st .online env hc.1 hc.2,
      extractTextFromImage_cooldown st .offline env hc.1 hc.2]
    exact ⟨rfl, rfl⟩

/-- Witness for C2 amended at a concrete no-cooldown state: `online`
propagates the remote error, `offline` returns a non-fallback local
result. -/
theorem C2_explicit_modes_amended_witness :
    (extractTextFromImage ⟨0, false, 0⟩ .online
        ⟨5, 2, .err "remote boom", .ok ⟨"device text", 1⟩⟩).1 =
      .thrown "remote boom" ∧
    (extractTextFromImage ⟨0, false, 0⟩ .offline
        ⟨5, 2, .err "remote boom", .ok ⟨"device text", 1⟩⟩).1 =
      .ok { text := "device text", source := .offline, confidence := 1,
            processingTime := 2, fallbackUsed := false } := by
  have h := (C2_explicit_modes_amended ⟨0, false, 0⟩
    ⟨5, 2, .err "remote boom", .ok ⟨"device text", 1⟩⟩).1 (by decide)
  exact ⟨h.2.1 "remote boom" rfl, h.2.2 ⟨"device text", 1⟩ rfl⟩

/-- C3 counterexample: a successful remote call in explicit `online` mode
does not reset `consecutiveFailures` (it stays 1), and `forceOfflineMode`
turns the cooldown flag on while `consecutiveFailures = 0 <` the threshold
2 — both conjuncts of the claim fail on the code. -/
theorem C3_health_invariant_counterexample :
    (extractTextFromImage ⟨1, false, 0⟩ .online
        ⟨0, 0, .ok "remote text", .err "no device"⟩).2.consecutiveFailures = 1 ∧
    (forceOfflineMode ⟨0, false, 0⟩ 0 OFFLINE_COOLDOWN).isTemporarilyOffline = true ∧
    (forceOfflineMode ⟨0, false, 0⟩ 0 OFFLINE_COOLDOWN).consecutiveFailures = 0 := by
  decide

/-- C3 amended: `consecutiveFailures` is reset to 0 on a successful remote
call made in auto mode (explicit `online` calls do not touch the counter),
and within `extractTextFromImage` the cooldown flag is turned on only at a
moment when `consecutiveFailures` has reached the threshold 2;
`forceOfflineMode` can activate the cooldown at any counter value. -/
theorem C3_health_invariant_amended (st : SmartOCRState) (env : CallEnv)
    (mode : OCRMode) (t : String) :
    (¬ (st.isTemporarilyOffline = true ∧ env.now < st.offlineUntil) →
      env.remote = .ok t →
      (extractTextFromImage st .auto env).2.consecutiveFailures = 0) ∧
    (st.isTemporarilyOffline = false →
      (extractTextFromImage st mode env).2.isTemporarilyOffline = true →
      MAX_CONSECUTIVE_FAILURES ≤ (extractTextFromImage st mode env).2.consecutiveFailures) := by
  constructor
  · intro hnc hr
    simp [extractTextFromImage, hnc, hr]
  · intro hf
    have hnc : ¬ (st.isTemporarilyOffline = true ∧ env.now < st.offlineUntil) := by
      simp [hf]
    have hne : ¬ (st.isTemporarilyOffline = true ∧ st.offlineUntil ≤ env.now) := by
      simp [hf]
    cases mode with
    | offline => simp [extractTextFromImage, hnc, hne, hf]
    | online => simp [extractTextFromImage, hnc, hne, hf]
    | auto =>
      cases hr : env.remote with
      | ok t' => simp [extractTextFromImage, hnc, hne, hf, hr]
      | err m =>
        cases hl : env.localOCR <;>
          simp [extractTextFromImage, hnc, hne, hf, hr, hl] <;>
          split <;> simp_all

/-- Witness for C3 amended: an auto-mode success resets the counter from 1
to 0, and an auto-mode second failure that turns the flag on has counter 2. -/
theorem C3_health_invariant_amended_witness :
    (extractTextFromImage ⟨1, false, 0⟩ .auto
        ⟨0, 0, .ok "remote text", .err "no device"⟩).2.consecutiveFailures = 0 ∧
    MAX_CONSECUTIVE_FAILURES ≤
      (extractTextFromImage ⟨1, false, 5⟩ .auto
        ⟨9, 0, .err "remote down", .ok ⟨"t", 1⟩⟩).2.consecutiveFailures := by
  refine ⟨(C3_health_invariant_amended ⟨1, false, 0⟩
      ⟨0, 0, .ok "remote text", .err "no device"⟩ .auto "remote text").1
      (by decide) rfl,
    (C3_health_invariant_amended ⟨1, false, 5⟩
      ⟨9, 0, .err "remote down", .ok ⟨"t", 1⟩⟩ .auto "unused").2 rfl (by decide)⟩

/-- C4 counterexample: the sequence 429-error, 500-error makes the loop
fall through its `attempt === 0` early-throw guard, so the non-429 error IS
retried: a third attempt happens and its success is returned. The claim's
`any other HTTP error is not retried` fails on the code. -/
theorem C4_retry_counterexample :
    executeWithRetry (fun n =>
      if n = 0 then .err "Mistral API rate limit: 429. Retry after 5000ms"
      else if n = 1 then .err "Mistral OCR API error: 500 Internal Server Error. boom"
      else .ok "recovered text") =
      ⟨.ok "recovered text", [2000], 3⟩ ∧
    includes429 "Mistral OCR API error: 500 Internal Server Error. boom" = false := by
  decide

/-- C4 amended: on HTTP 429 the provider retries up to `MAX_RETRIES = 3`
total attempts with exponential backoff `BASE_DELAY * 2 ^ attempt` (2000 ms
then 4000 ms); two 429s followed by a success yield the success on the 3rd
attempt, and feeding it to the arbiter yields a remote-sourced result with
no fallback. A non-429 error is not retried only when it occurs on the
first attempt; a non-429 error on a later attempt (after a 429) does not
abort the loop and the operation is attempted again. -/
theorem C4_retry_policy_amended (op : Nat → StrOutcome) (e0 e1 t : String)
    (st : SmartOCRState) (env : CallEnv) :
    (op 0 = .err e0 → includes429 e0 = true →
     op 1 = .err e1 → includes429 e1 = true → op 2 = .ok t →
      executeWithRetry op = ⟨.ok t, [2000, 4000], 3⟩) ∧
    (op 0 = .err e0 → includes429 e0 = false →
      executeWithRetry op = ⟨.err e0, [], 1⟩) ∧
    (op 0 = .err e0 → includes429 e0 = true →
     op 1 = .err e1 → includes429 e1 = false → op 2 = .ok t →
      executeWithRetry op = ⟨.ok t, [2000], 3⟩) ∧
    (¬ (st.isTemporarilyOffline = true ∧ env.now < st.offlineUntil) →
     env.remote = .ok t →
      (extractTextFromImage st .auto env).1 =
        .ok { text := t, source := .mistral, confidence := 9/10,
              processingTime := env.dur, fallbackUsed := false }) := by
  refine ⟨?_, ?_, ?_, ?_⟩
  · intro h0 h0r h1 h1r h2
    simp [executeWithRetry, executeWithRetryGo, MAX_RETRIES, BASE_DELAY,
      h0, h0r, h1, h1r, h2]
  · intro h0 h0r
    simp [executeWithRetry, executeWithRetryGo, MAX_RETRIES, h0, h0r]
  · intro h0 h0r h1 h1r h2
    simp [executeWithRetry, executeWithRetryGo, MAX_RETRIES, BASE_DELAY,
      h0, h0r, h1, h1r, h2]
  · intro hnc hr
    simp [extractTextFromImage, performOnlineOCR, hnc, hr]

/-- Witness for C4 amended at concrete operations: two 429s then success;
a 500 on the first attempt; and the arbiter wrapping of a remote success. -/
theorem C4_retry_policy_amended_witness :
    executeWithRetry (fun n =>
      if n ≤ 1 then .err "429 too many requests" else .ok "ok text") =
      ⟨.ok "ok text", [2000, 4000], 3⟩ ∧
    executeWithRetry (fun _ => .err "HTTP 500") = ⟨.err "HTTP 500", [], 1⟩ ∧
    (extractTextFromImage ⟨0, false, 0⟩ .auto
        ⟨1, 6, .ok "ok text", .ok ⟨"l", 1⟩⟩).1 =
      .ok { text := "ok text", source := .mistral, confidence := 9/10,
            processingTime := 6, fallbackUsed := false } := by
  refine ⟨?_, ?_, ?_⟩
  · exact (C4_retry_policy_amended (fun n =>
      if n ≤ 1 then .err "429 too many requests" else .ok "ok text")
      "429 too many requests" "429 too many requests" "ok text"
      ⟨0, false, 0⟩ ⟨1, 6, .ok "ok text", .ok ⟨"l", 1⟩⟩).1
      rfl (by decide) rfl (by decide) rfl
  · exact (C4_retry_policy_amended (fun _ => .err "HTTP 500")
      "HTTP 500" "HTTP 500" "ok text"
      ⟨0, false, 0⟩ ⟨1, 6, .ok "ok text", .ok ⟨"l", 1⟩⟩).2.1 rfl (by decide)
  · exact (C4_retry_policy_amended (fun _ => .err "HTTP 500")
      "HTTP 500" "HTTP 500" "ok text"
      ⟨0, false, 0⟩ ⟨1, 6, .ok "ok text", .ok ⟨"l", 1⟩⟩).2.2.2
      (by decide) rfl

/-- C5: in auto mode (outside an active cooldown), when the remote attempt
throws `e` and the local fallback throws `oe`, the arbiter returns — not
throws — a synthetic diagnostic result with confidence 0 and
`fallbackUsed = true` whose text embeds both error messages. -/
theorem C5_synthetic_diagnostic (st : SmartOCRState) (env : CallEnv)
    (e oe : String)
    (hnc : ¬ (st.isTemporarilyOffline = true ∧ env.now < st.offlineUntil))
    (hr : env.remote = .err e) (hl : env.localOCR = .err oe) :
    (extractTextFromImage st .auto env).1 =
      .ok { text := syntheticFailureText e oe, source := .offline,
            confidence := 0, processingTime := env.dur, fallbackUsed := true } ∧
    ∃ s1 s2 s3, syntheticFailureText e oe = s1 ++ e ++ s2 ++ oe ++ s3 := by
  refine ⟨by simp [extractTextFromImage, hnc, hr, hl], ?_⟩
  refine ⟨"OCR processing failed for this image.\n\nOnline Error: ",
    "\nOffline Error: ",
    "\n\nSuggestions:\n1. Check your internet connection and API keys\n" ++
      "2. Ensure the image is clear and contains readable text\n" ++
      "3. Try again in a few minutes", ?_⟩
  simp [syntheticFailureText, String.append_assoc]

/-- Witness for C5 at concrete inputs. -/
theorem C5_synthetic_diagnostic_witness :
    (extractTextFromImage ⟨0, false, 0⟩ .auto
        ⟨0, 4, .err "E1", .err "E2"⟩).1 =
      .ok { text := syntheticFailureText "E1" "E2", source := .offline,
            confidence := 0, processingTime := 4, fallbackUsed := true } := by
  exact (C5_synthetic_diagnostic ⟨0, false, 0⟩ ⟨0, 4, .err "E1", .err "E2"⟩
    "E1" "E2" (by decide) rfl rfl).1

/-- The batch loop yields exactly one output per input environment. -/
theorem extractTextFromImagesGo_length (mode : OCRMode) :
    ∀ (envs : List CallEnv) (st : SmartOCRState) (i : Nat),
      (extractTextFromImagesGo mode st i envs).1.length = envs.length := by
  intro envs
  induction envs with
  | nil => intro st i; simp [extractTextFromImagesGo]
  | cons env rest ih =>
    intro st i
    simp [extractTextFromImagesGo, ih]

/-- Decomposition of the batch loop over an appended input list. -/
theorem extractTextFromImagesGo_append (mode : OCRMode) :
    ∀ (l1 l2 : List CallEnv) (st : SmartOCRState) (i : Nat),
      extractTextFromImagesGo mode st i (l1 ++ l2) =
        ((extractTextFromImagesGo mode st i l1).1 ++
          (extractTextFromImagesGo mode (extractTextFromImagesGo mode st i l1).2
            (i + l1.length) l2).1,
         (extractTextFromImagesGo mode (extractTextFromImagesGo mode st i l1).2
            (i + l1.length) l2).2) := by
  intro l1
  induction l1 with
  | nil => intro l2 st i; simp [extractTextFromImagesGo]
  | cons env rest ih =>
    intro l2 st i
    have h1 : i + 1 + rest.length = i + (rest.length + 1) := by omega
    simp only [List.cons_append, List.length_cons, extractTextFromImagesGo,
      List.append_eq, ih, h1]

/-- C10: the batch OCR entry point returns exactly one result per input
image, in input order; when the call for the image at position
`envs1.length` throws, the placeholder diagnostic result (confidence 0,
`fallbackUsed = true`, error text naming the 1-based position) is emitted
at exactly that position and the batch continues with the remaining
images. -/
theorem C10_batch_shape (st : SmartOCRState) (mode : OCRMode)
    (envs1 envs2 : List CallEnv) (env : CallEnv) (e : String)
    (h : (extractTextFromImage (extractTextFromImages st mode envs1).2 mode env).1 =
      .thrown e) :
    (∀ es : List CallEnv, (extractTextFromImages st mode es).1.length = es.length) ∧
    (extractTextFromImages st mode (envs1 ++ env :: envs2)).1 =
      (extractTextFromImages st mode envs1).1 ++
        placeholderResult envs1.length e ::
          (extractTextFromImagesGo mode
            (extractTextFromImage (extractTextFromImages st mode envs1).2 mode env).2
            (envs1.length + 1) envs2).1 := by
  constructor
  · intro es
    exact extractTextFromImagesGo_length mode es st 0
  · show (extractTextFromImagesGo mode st 0 (envs1 ++ env :: envs2)).1 = _
    rw [extractTextFromImagesGo_append]
    simp only [extractTextFromImages] at h ⊢
    simp [extractTextFromImagesGo, h, Nat.zero_add]

/-- Witness for C10: a one-image batch in explicit online mode whose remote
call throws yields exactly the placeholder result. -/
theorem C10_batch_shape_witness :
    (extractTextFromImages ⟨0, false, 0⟩ .online
        [⟨0, 0, .err "boom", .ok ⟨"l", 1⟩⟩]).1 =
      [placeholderResult 0 "boom"] ∧
    (extractTextFromImages ⟨0, false, 0⟩ .online
        [⟨0, 0, .err "boom", .ok ⟨"l", 1⟩⟩]).1.length = 1 := by
  have h := C10_batch_shape ⟨0, false, 0⟩ .online [] []
    ⟨0, 0, .err "boom", .ok ⟨"l", 1⟩⟩ "boom" (by decide)
  constructor
  · simpa [extractTextFromImages, extractTextFromImagesGo] using h.2
  · simpa using h.1 [⟨0, 0, .err "boom", .ok ⟨"l", 1⟩⟩]

/-- A page result with `ocrUsed = true` can only come from an attempt body
whose OCR gate fired. -/
theorem processPageGo_ocrUsed (pageNum : Nat) (att : Nat → Option PageBodyEnv) :
    ∀ (fuel rc : Nat), (processPageGo pageNum att rc fuel).ocrUsed = true →
      ∃ k env2, att k = some env2 ∧ (pageBody pageNum env2).2 = true := by
  intro fuel
  induction fuel with
  | zero =>
    intro rc h
    simp [processPageGo, mkErrorPage] at h
  | succ fuel ih =>
    intro rc h
    cases hk : att rc with
    | some env2 =>
      simp only [processPageGo, hk] at h
      exact ⟨rc, env2, hk, h⟩
    | none =>
      simp only [processPageGo, hk] at h
      split at h
      · simp [mkErrorPage] at h
      · exact ih (rc + 1) h

/-- The slide loop yields exactly one result per slide file. -/
theorem processSlides_length :
    ∀ (envs : List SlideEnv) (i : Nat), (processSlides i envs).length = envs.length := by
  intro envs
  induction envs with
  | nil => intro i; rfl
  | cons env rest ih => intro i; simp [processSlides, ih]

/-- The `j`-th result of the slide loop started at index `i` is the
processing of the `j`-th slide environment at slide index `i + j`. -/
theorem processSlides_get :
    ∀ (envs : List SlideEnv) (i j : Nat) (h : j < envs.length)
      (h2 : j < (processSlides i envs).length),
      (processSlides i envs).get ⟨j, h2⟩ = processSlide (i + j) (envs.get ⟨j, h⟩) := by
  intro envs
  induction envs with
  | nil =>
    intro i j h h2
    exact absurd h (Nat.not_lt_zero j)
  | cons env rest ih =>
    intro i j h h2
    cases j with
    | zero => rfl
    | succ j' =>
      have h' : j' < rest.length := by simpa using h
      have h2' : j' < (processSlides (i + 1) rest).length := by
        rw [processSlides_length]; exact h'
      have harith : i + 1 + j' = i + (j' + 1) := by omega
      calc (processSlides i (env :: rest)).get ⟨j' + 1, h2⟩
          = (processSlides (i + 1) rest).get ⟨j', h2'⟩ := rfl
        _ = processSlide (i + 1 + j') (rest.get ⟨j', h'⟩) := ih (i + 1) j' h' h2'
        _ = processSlide (i + (j' + 1)) ((env :: rest).get ⟨j' + 1, h⟩) := by
            have hget2 : (env :: rest).get ⟨j' + 1, h⟩ = rest.get ⟨j', h'⟩ := rfl
            rw [harith, hget2]

/-- C6: a PDF page or PPTX slide result with `ocrUsed = true` implies the
unit's structural-extraction text had trimmed length below 20 characters
when OCR was invoked; a unit whose structural text meets the threshold
never invokes OCR (its result is the structural text, with
`ocrUsed = false`, whatever the OCR environment holds). -/
theorem C6_ocr_gate (pageNum i : Nat) (att : Nat → Option PageBodyEnv)
    (env : PageBodyEnv) (senv : SlideEnv) (t : String) :
    ((pageBody pageNum env).2 = true → (jsTrim (basicTextOf env)).length < 20) ∧
    (20 ≤ (jsTrim (basicTextOf env)).length →
      pageBody pageNum env = (basicTextOf env, false)) ∧
    ((processPage pageNum att).ocrUsed = true →
      ∃ k env2, att k = some env2 ∧ (jsTrim (basicTextOf env2)).length < 20) ∧
    ((processSlide i senv).ocrUsed = true →
      ∃ s, senv.structuralText = .ok s ∧ (jsTrim s).length < 20) ∧
    (senv.structuralText = .ok t → 20 ≤ (jsTrim t).length →
      processSlide i senv =
        { slideNumber := i + 1, text := t, wordCount := countWords t,
          ocrUsed := false }) := by
  have part1 : ∀ env2 : PageBodyEnv,
      (pageBody pageNum env2).2 = true → (jsTrim (basicTextOf env2)).length < 20 := by
    intro env2 h
    simp only [pageBody] at h
    split at h
    · next hc =>
      rcases hc.1 with h1 | h1
      · rw [h1]; decide
      · exact h1
    · simp at h
  refine ⟨part1 env, ?_, ?_, ?_, ?_⟩
  · intro h20
    simp only [pageBody]
    split
    · next hc =>
      exfalso
      rcases hc.1 with h1 | h1
      · rw [h1] at h20; exact absurd h20 (by decide)
      · omega
    · rfl
  · intro h
    obtain ⟨k, env2, hk, hb⟩ := processPageGo_ocrUsed pageNum att (pdfMaxRetries + 1) 0 h
    exact ⟨k, env2, hk, part1 env2 hb⟩
  · intro h
    simp only [processSlide] at h
    cases hs : senv.structuralText with
    | err m => rw [hs] at h; simp [slideErrorInfo] at h
    | ok s =>
      rw [hs] at h
      simp only at h
      split at h
      · next hc =>
        refine ⟨s, rfl, ?_⟩
        rcases hc with h1 | h1
        · rw [h1]; decide
        · exact h1
      · simp at h
  · intro hs h20
    simp only [processSlide, hs]
    split
    · next hc =>
      exfalso
      rcases hc with h1 | h1
      · rw [h1] at h20; exact absurd h20 (by decide)
      · omega
    · rfl

/-- Witness for C6: a 4-character structural text fires the gate (OCR text
is returned, `ocrUsed = true`), while a 43-character structural text
short-circuits OCR on both the PDF and the PPTX path. -/
theorem C6_ocr_gate_witness :
    (jsTrim (basicTextOf ⟨.ok "img.png", .ok "tiny", .ok "OCRTEXT"⟩)).length < 20 ∧
    pageBody 0 ⟨.ok "img.png",
        .ok "This is a sufficiently long structural text", .ok "OCRTEXT"⟩ =
      ("This is a sufficiently long structural text", false) ∧
    processSlide 0 ⟨.ok "A sufficiently long structural slide text",
        some "u", .ok "OCRTEXT"⟩ =
      { slideNumber := 1, text := "A sufficiently long structural slide text",
        wordCount := countWords "A sufficiently long structural slide text",
        ocrUsed := false } := by
  refine ⟨?_, ?_, ?_⟩
  · exact (C6_ocr_gate 0 0 (fun _ => none)
      ⟨.ok "img.png", .ok "tiny", .ok "OCRTEXT"⟩
      ⟨.err "x", none, .ok "y"⟩ "t").1 (by decide)
  · exact (C6_ocr_gate 0 0 (fun _ => none)
      ⟨.ok "img.png", .ok "This is a sufficiently long structural text",
        .ok "OCRTEXT"⟩
      ⟨.err "x", none, .ok "y"⟩ "t").2.1 (by decide)
  · exact (C6_ocr_gate 0 0 (fun _ => none)
      ⟨.ok "img.png", .ok "tiny", .ok "OCRTEXT"⟩
      ⟨.ok "A sufficiently long structural slide text", some "u", .ok "OCRTEXT"⟩
      "A sufficiently long structural slide text").2.2.2.2 rfl (by decide)

/-- C7: the per-unit result list always has exactly one entry per unit the
splitter identified (`getPageCount()` pages for PDF, one per slide XML
member for PPTX), even when units error; an errored slide still
contributes an entry carrying an error message as its text and
`wordCount = 0`. -/
theorem C7_unit_count (totalPages : Nat) (att : Nat → Nat → Option PageBodyEnv)
    (envs : List SlideEnv) (j : Nat) (e : String) (u : Option String)
    (o : StrOutcome) (hj : j < envs.length)
    (hget : envs.get ⟨j, hj⟩ = ⟨.err e, u, o⟩)
    (hj2 : j < (extractTextFromPPTX envs).slides.length) :
    (extractTextFromPDF totalPages att).pages.length = totalPages ∧
    (extractTextFromPPTX envs).slides.length = envs.length ∧
    (extractTextFromPPTX envs).totalSlides = envs.length ∧
    ((extractTextFromPPTX envs).slides.get ⟨j, hj2⟩).wordCount = 0 ∧
    ((extractTextFromPPTX envs).slides.get ⟨j, hj2⟩).text =
      "Error processing slide " ++ toString (j + 1) ++ ": " ++ e := by
  have hg : (extractTextFromPPTX envs).slides.get ⟨j, hj2⟩ =
      processSlide (0 + j) (envs.get ⟨j, hj⟩) :=
    processSlides_get envs 0 j hj hj2
  rw [hget] at hg
  rw [Nat.zero_add] at hg
  refine ⟨by simp [extractTextFromPDF], by simp [extractTextFromPPTX, processSlides_length],
    by simp [extractTextFromPPTX], ?_, ?_⟩ <;>
    rw [hg] <;> simp [processSlide, slideErrorInfo]

/-- Witness for C7 at concrete inputs: a 2-page PDF whose pages all time
out still yields 2 page entries, and a 1-slide PPTX whose slide read throws
yields 1 slide entry with `wordCount = 0`. -/
theorem C7_unit_count_witness :
    (extractTextFromPDF 2 (fun _ _ => none)).pages.length = 2 ∧
    (extractTextFromPPTX [⟨.err "boom", some "u", .ok "O"⟩]).slides.length = 1 ∧
    ((extractTextFromPPTX [⟨.err "boom", some "u", .ok "O"⟩]).slides.get
        ⟨0, by decide⟩).wordCount = 0 := by
  have h := C7_unit_count 2 (fun _ _ => none)
    [⟨.err "boom", some "u", .ok "O"⟩] 0 "boom" (some "u") (.ok "O")
    (by decide) rfl (by decide)
  exact ⟨h.1, h.2.1, h.2.2.2.1⟩

/-- C9 counterexample: a PPTX slide whose first processing attempt throws
is recorded as an error unit immediately — the slide loop has no timeout
and no retry, so the successful outcome a retry would have seen (here, a
41-character structural text) is never consulted, contradicting the
claim's `every unit (page or slide) ... is retried up to 2 additional
times`. -/
theorem C9_slide_retry_counterexample :
    processSlideAttempts 0 (fun a =>
      if a = 0 then ⟨.err "boom", some "u", .ok "O"⟩
      else ⟨.ok "A sufficiently long structural slide text", some "u", .ok "O"⟩) =
      slideErrorInfo 0 "boom" ∧
    processSlideRetrySpec 0 (fun a =>
      if a = 0 then ⟨.err "boom", some "u", .ok "O"⟩
      else ⟨.ok "A sufficiently long structural slide text", some "u", .ok "O"⟩) =
      ⟨1, "A sufficiently long structural slide text", 6, false⟩ ∧
    slideErrorInfo 0 "boom" ≠
      (⟨1, "A sufficiently long structural slide text", 6, false⟩ : PPTXSlideInfo) := by
  decide

/-- C9 amended: only PDF pages are processed under the 45 s timeout with up
to 2 retries; after exhaustion the page is recorded as an error unit with
an error message as its text and `wordCount = 0`, and the document-level
result still succeeds. A PPTX slide is processed exactly once, with no
timeout or retry: a thrown slide error is immediately recorded as an error
unit with `wordCount = 0` (the document-level result still succeeding). -/
theorem C9_unit_retry_amended (pageNum : Nat) (att : Nat → Option PageBodyEnv)
    (env : PageBodyEnv) (i : Nat) (senv : SlideEnv) (e : String) :
    (att 0 = none → att 1 = some env →
      processPage pageNum att =
        { pageNumber := pageNum + 1, text := (pageBody pageNum env).1,
          wordCount := countWords (pageBody pageNum env).1,
          ocrUsed := (pageBody pageNum env).2 }) ∧
    (att 0 = none → att 1 = none → att 2 = some env →
      processPage pageNum att =
        { pageNumber := pageNum + 1, text := (pageBody pageNum env).1,
          wordCount := countWords (pageBody pageNum env).1,
          ocrUsed := (pageBody pageNum env).2 }) ∧
    (att 0 = none → att 1 = none → att 2 = none →
      processPage pageNum att = mkErrorPage pageNum ∧
      (mkErrorPage pageNum).wordCount = 0) ∧
    (senv.structuralText = .err e →
      processSlide i senv = slideErrorInfo i e ∧
      (slideErrorInfo i e).wordCount = 0) := by
  refine ⟨?_, ?_, ?_, ?_⟩
  · intro h0 h1
    simp [processPage, processPageGo, pdfMaxRetries, h0, h1]
  · intro h0 h1 h2
    simp [processPage, processPageGo, pdfMaxRetries, h0, h1, h2]
  · intro h0 h1 h2
    refine ⟨?_, rfl⟩
    simp [processPage, processPageGo, pdfMaxRetries, h0, h1, h2]
  · intro hs
    exact ⟨by simp [processSlide, hs], rfl⟩

/-- Witness for C9 amended: a page that times out once then succeeds via
OCR, a page whose 3 attempts all time out, and a slide whose read throws. -/
theorem C9_unit_retry_amended_witness :
    processPage 0 (fun a =>
      if a = 0 then none
      else some ⟨.ok "img.png", .ok "tiny", .ok "OCRTEXT"⟩) =
      { pageNumber := 1, text := "OCRTEXT", wordCount := 1, ocrUsed := true } ∧
    processPage 3 (fun _ => none) = mkErrorPage 3 ∧
    processSlide 0 ⟨.err "boom", none, .ok "x"⟩ = slideErrorInfo 0 "boom" := by
  refine ⟨?_, ?_, ?_⟩
  · have h := (C9_unit_retry_amended 0 (fun a =>
      if a = 0 then none
      else some ⟨.ok "img.png", .ok "tiny", .ok "OCRTEXT"⟩)
      ⟨.ok "img.png", .ok "tiny", .ok "OCRTEXT"⟩ 0
      ⟨.err "boom", none, .ok "x"⟩ "boom").1 rfl rfl
    exact h.trans (by decide)
  · exact ((C9_unit_retry_amended 3 (fun _ => none)
      ⟨.ok "img.png", .ok "tiny", .ok "OCRTEXT"⟩ 0
      ⟨.err "boom", none, .ok "x"⟩ "boom").2.2.1 rfl rfl rfl).1
  · exact ((C9_unit_retry_amended 0 (fun _ => none)
      ⟨.ok "img.png", .ok "tiny", .ok "OCRTEXT"⟩ 0
      ⟨.err "boom", none, .ok "x"⟩ "boom").2.2.2 rfl).1

/-- The kept-documents list of `processBatch` has one entry per document
on which `processDocument` returned normally. -/
theorem processBatch_documents_length :
    ∀ docs : List BatchDoc,
      (docs.filterMap fun d =>
        match processDocument d with
        | .ok p => some p
        | .err _ => none).length = (docs.filter docSucceeds).length := by
  intro docs
  induction docs with
  | nil => rfl
  | cons d rest ih =>
    cases hd : processDocument d with
    | ok p => simp [List.filterMap_cons, List.filter_cons, docSucceeds, hd, ih]
    | err m => simp [List.filterMap_cons, List.filter_cons, docSucceeds, hd, ih]

/-- C8 counterexample: appending a document of unsupported type to a batch
changes nothing in the batch result — `processBatch` of the 2-document
batch equals `processBatch` of the 1-document batch, so no component of
the result records which documents failed (the claim's `records which
documents failed versus succeeded` is not satisfied by any part of the
result). -/
theorem C8_batch_record_counterexample :
    processBatch [⟨"a.pdf", "application/pdf", .ok "hello world" []⟩,
      ⟨"evil.xyz", "application/x-unknown", .ok "hello" []⟩] =
      processBatch [⟨"a.pdf", "application/pdf", .ok "hello world" []⟩] ∧
    processDocument ⟨"evil.xyz", "application/x-unknown", .ok "hello" []⟩ =
      .err "Unsupported document type: application/x-unknown" := by
  decide

/-- C8 amended: the batch pipeline does not abort on a failing document
and returns the results of exactly the documents that processed
successfully; the failure itself is only logged — the batch result carries
no record of it, and equals the result of the batch with the failing
document removed. -/
theorem C8_batch_resilience_amended (pre post : List BatchDoc) (d : BatchDoc)
    (e : String) (hd : processDocument d = .err e) :
    processBatch (pre ++ d :: post) = processBatch (pre ++ post) ∧
    (∀ docs : List BatchDoc,
      (processBatch docs).documents.length = (docs.filter docSucceeds).length) := by
  constructor
  · have hfm : ((pre ++ d :: post).filterMap fun d2 =>
        match processDocument d2 with
        | .ok p => some p
        | .err _ => none) =
        ((pre ++ post).filterMap fun d2 =>
          match processDocument d2 with
          | .ok p => some p
          | .err _ => none) := by
      simp [List.filterMap_append, List.filterMap_cons, hd]
    simp only [processBatch, hfm]
  · intro docs
    simpa only [processBatch] using processBatch_documents_length docs

/-- Witness for C8 amended: a 2-document batch whose second document has an
unsupported type yields the same result as the 1-document batch, and keeps
exactly 1 document. -/
theorem C8_batch_resilience_amended_witness :
    processBatch [⟨"a.pdf", "application/pdf", .ok "hello world" []⟩,
      ⟨"evil2.xyz", "application/x-unknown", .ok "bye" []⟩] =
      processBatch [⟨"a.pdf", "application/pdf", .ok "hello world" []⟩] ∧
    (processBatch [⟨"a.pdf", "application/pdf", .ok "hello world" []⟩,
      ⟨"evil2.xyz", "application/x-unknown", .ok "bye" []⟩]).documents.length = 1 := by
  have h := C8_batch_resilience_amended
    [⟨"a.pdf", "application/pdf", .ok "hello world" []⟩] []
    ⟨"evil2.xyz", "application/x-unknown", .ok "bye" []⟩
    "Unsupported document type: application/x-unknown" (by decide)
  refine ⟨by simpa using h.1, ?_⟩
  have h2 := h.2 [⟨"a.pdf", "application/pdf", .ok "hello world" []⟩,
    ⟨"evil2.xyz", "application/x-unknown", .ok "bye" []⟩]
  exact h2.trans (by decide)

end Hagee
